import Mathlib

/-!
Verification of the fitness-tracker repository (two Python source files,
`homework.py` and `oop_refactor.py`).  Numbers are modelled by the exact
rationals `ℚ`: every literal in the source is an exact decimal and every
operation used is `+ - * / **2`, all exact on `ℚ`.  Each Python class is a
structure, each method a function; single dispatch is resolved statically
because the set of variants is closed (Running, SportsWalking, Swimming).
The two files are transcribed independently into namespaces `HW`
(homework.py) and `OR` (oop_refactor.py).
-/

set_option maxHeartbeats 1000000

/- Several claims state preconditions (positive duration, nonzero height)
that the exact rational semantics does not need; they are kept verbatim. -/
set_option linter.unusedVariables false

/- ---------------------------------------------------------------------
   Decimal rendering of a rational, modelling Python `format(x, '.3f')`:
   round x*1000 to an integer (half-to-even, as float formatting does),
   then print sign, decimal integer part, '.', and three decimal digits.
   --------------------------------------------------------------------- -/

/-- Round a rational to the nearest integer, ties to even. -/
def rne (q : ℚ) : ℤ :=
  let f : ℤ := Int.floor q
  let r : ℚ := q - f
  if r < 1/2 then f
  else if 1/2 < r then f + 1
  else if f % 2 = 0 then f else f + 1

/-- Decimal digit characters of a natural number (most significant first). -/
def natDecDigits (n : ℕ) : List Char :=
  if _h : n < 10 then [Nat.digitChar n]
  else natDecDigits (n / 10) ++ [Nat.digitChar (n % 10)]
termination_by n
decreasing_by exact Nat.div_lt_self (by omega) (by omega)

/-- Exactly three decimal digit characters of `n % 1000`, zero padded. -/
def pad3 (n : ℕ) : List Char :=
  [Nat.digitChar (n / 100 % 10), Nat.digitChar (n / 10 % 10), Nat.digitChar (n % 10)]

/-- Fixed-point rendering of a nonnegative numerator `n` of thousandths. -/
def fmt3Core (n : ℕ) : String :=
  String.mk (natDecDigits (n / 1000)) ++ "." ++ String.mk (pad3 (n % 1000))

/-- Model of Python `'\x7b:.3f\x7d'.format(q)`: fixed point, three decimals. -/
def fmt3 (q : ℚ) : String :=
  let m : ℤ := rne (q * 1000)
  if m < 0 then "-" ++ fmt3Core m.natAbs else fmt3Core m.toNat

/- ---------------------------------------------------------------------
   homework.py
   --------------------------------------------------------------------- -/

namespace HW

/-- `InfoMessage` dataclass of homework.py (fields in declaration order,
which is also the order `asdict(self).values()` feeds to `TEXT.format`). -/
structure InfoMessage where
  training_type : String
  duration : ℚ
  distance : ℚ
  speed : ℚ
  calories : ℚ
deriving DecidableEq, Repr

/-- `InfoMessage.get_message`: `TEXT.format(*asdict(self).values())` with
the five placeholders of `TEXT`, the four numeric ones formatted `.3f`. -/
def InfoMessage.get_message (m : InfoMessage) : String :=
  "Тип тренировки: " ++ m.training_type ++
  "; Длительность: " ++ fmt3 m.duration ++
  " ч.; Дистанция: " ++ fmt3 m.distance ++
  " км; Ср. скорость: " ++ fmt3 m.speed ++
  " км/ч; Потрачено ккал: " ++ fmt3 m.calories ++ "."

/-- Class constant `Training.M_IN_KM`. -/
def M_IN_KM : ℚ := 1000
/-- Class constant `Training.H_IN_MIN`. -/
def H_IN_MIN : ℚ := 60
/-- Class constant `Training.LEN_STEP` (running/walking step length). -/
def LEN_STEP : ℚ := 0.65

/-- `class Running(Training)`: inherits the three base fields unchanged. -/
structure Running where
  action : ℚ
  duration : ℚ
  weight : ℚ
deriving DecidableEq, Repr

/-- `class SportsWalking(Training)`: base fields plus `height`. -/
structure SportsWalking where
  action : ℚ
  duration : ℚ
  weight : ℚ
  height : ℚ
deriving DecidableEq, Repr

/-- `class Swimming(Training)`: base fields plus pool length and lap count. -/
structure Swimming where
  action : ℚ
  duration : ℚ
  weight : ℚ
  length_pool : ℚ
  count_pool : ℚ
deriving DecidableEq, Repr

/-- `Training.get_distance`, as inherited by `Running` (LEN_STEP = 0.65). -/
def Running.get_distance (t : Running) : ℚ :=
  t.action * LEN_STEP / M_IN_KM

/-- `Training.get_mean_speed`, as inherited by `Running`. -/
def Running.get_mean_speed (t : Running) : ℚ :=
  t.get_distance / t.duration

/-- `Running.CALORIES_MEAN_SPEED_MULTIPLIER`. -/
def Running.CALORIES_MEAN_SPEED_MULTIPLIER : ℚ := 18
/-- `Running.CALORIES_MEAN_SPEED_SHIFT`. -/
def Running.CALORIES_MEAN_SPEED_SHIFT : ℚ := 1.79

/-- `Running.get_spent_calories`. -/
def Running.get_spent_calories (t : Running) : ℚ :=
  (Running.CALORIES_MEAN_SPEED_MULTIPLIER
      * t.get_mean_speed
      + Running.CALORIES_MEAN_SPEED_SHIFT)
    * t.weight / M_IN_KM
    * (t.duration * H_IN_MIN)

/-- `Training.show_training_info`, as inherited by `Running`
(`type(self).__name__` resolves to `"Running"`). -/
def Running.show_training_info (t : Running) : InfoMessage :=
  ⟨"Running", t.duration, t.get_distance, t.get_mean_speed, t.get_spent_calories⟩

/-- `SportsWalking.COEF_1`. -/
def SportsWalking.COEF_1 : ℚ := 0.035
/-- `SportsWalking.COEF_2`. -/
def SportsWalking.COEF_2 : ℚ := 0.029
/-- `SportsWalking.KM_H_IN_M_S`. -/
def SportsWalking.KM_H_IN_M_S : ℚ := 0.278
/-- `SportsWalking.CM_IN_M`. -/
def SportsWalking.CM_IN_M : ℚ := 100

/-- `Training.get_distance`, as inherited by `SportsWalking`. -/
def SportsWalking.get_distance (t : SportsWalking) : ℚ :=
  t.action * LEN_STEP / M_IN_KM

/-- `Training.get_mean_speed`, as inherited by `SportsWalking`. -/
def SportsWalking.get_mean_speed (t : SportsWalking) : ℚ :=
  t.get_distance / t.duration

/-- `SportsWalking.get_spent_calories`. -/
def SportsWalking.get_spent_calories (t : SportsWalking) : ℚ :=
  (SportsWalking.COEF_1 * t.weight
      + ((t.get_mean_speed * SportsWalking.KM_H_IN_M_S) ^ 2
          / (t.height / SportsWalking.CM_IN_M))
        * SportsWalking.COEF_2 * t.weight)
    * (t.duration * H_IN_MIN)

/-- `Training.show_training_info`, as inherited by `SportsWalking`. -/
def SportsWalking.show_training_info (t : SportsWalking) : InfoMessage :=
  ⟨"SportsWalking", t.duration, t.get_distance, t.get_mean_speed, t.get_spent_calories⟩

/-- `Swimming.LEN_STEP` override: stroke length 1.38 m. -/
def Swimming.LEN_STEP : ℚ := 1.38
/-- `Swimming.NUMBER_1`. -/
def Swimming.NUMBER_1 : ℚ := 1.1
/-- `Swimming.NUMBER_2`. -/
def Swimming.NUMBER_2 : ℚ := 2

/-- `Training.get_distance` as inherited by `Swimming`: the body is the
base one, but dynamic lookup of `LEN_STEP` finds the override 1.38. -/
def Swimming.get_distance (t : Swimming) : ℚ :=
  t.action * Swimming.LEN_STEP / M_IN_KM

/-- `Swimming.get_mean_speed` override: pool based, not distance based. -/
def Swimming.get_mean_speed (t : Swimming) : ℚ :=
  t.length_pool * t.count_pool / M_IN_KM / t.duration

/-- `Swimming.get_spent_calories`. -/
def Swimming.get_spent_calories (t : Swimming) : ℚ :=
  (t.get_mean_speed + Swimming.NUMBER_1)
    * Swimming.NUMBER_2 * t.weight * t.duration

/-- `Training.show_training_info`, as inherited by `Swimming`. -/
def Swimming.show_training_info (t : Swimming) : InfoMessage :=
  ⟨"Swimming", t.duration, t.get_distance, t.get_mean_speed, t.get_spent_calories⟩

/-- Closed union of the three constructible variants (the values of the
`workout_code` dict in `read_package`). -/
inductive AnyTraining where
  | run (t : Running)
  | wlk (t : SportsWalking)
  | swm (t : Swimming)
deriving DecidableEq, Repr

/-- The fixed warning printed for an unrecognized workout type code. -/
def unknownTypeWarning : String :=
  "Данный тип тренировки неизвестен. Попробуйте походить, поплавать или бег."

/-- The `TypeError` Python raises when `*data` unpacking does not match the
constructor arity (modelled by its kind, not the exact interpreter text). -/
def argMismatch : String := "TypeError: argument mismatch"

/-- `Swimming(*data)`: succeeds only on exactly five positional values. -/
def mkSwimming (data : List ℚ) : Except String Swimming :=
  match data with
  | [a, d, w, lp, cp] => .ok ⟨a, d, w, lp, cp⟩
  | _ => .error argMismatch

/-- `Running(*data)`: succeeds only on exactly three positional values. -/
def mkRunning (data : List ℚ) : Except String Running :=
  match data with
  | [a, d, w] => .ok ⟨a, d, w⟩
  | _ => .error argMismatch

/-- `SportsWalking(*data)`: succeeds only on exactly four positional values. -/
def mkSportsWalking (data : List ℚ) : Except String SportsWalking :=
  match data with
  | [a, d, w, h] => .ok ⟨a, d, w, h⟩
  | _ => .error argMismatch

/-- `read_package` of homework.py.  On a recognized code it constructs the
variant (arity errors surface as `.error`); on an unrecognized code it
prints the fixed warning and returns `None`.  The result pairs the value
returned to the caller with the list of lines printed. -/
def read_package (workout_type : String) (data : List ℚ) :
    Except String (Option AnyTraining × List String) :=
  if workout_type = "SWM" then
    (mkSwimming data).map fun t => (some (.swm t), [])
  else if workout_type = "RUN" then
    (mkRunning data).map fun t => (some (.run t), [])
  else if workout_type = "WLK" then
    (mkSportsWalking data).map fun t => (some (.wlk t), [])
  else
    .ok (none, [unknownTypeWarning])

end HW

/- ---------------------------------------------------------------------
   oop_refactor.py
   --------------------------------------------------------------------- -/

namespace OR

/-- `InfoMessage` dataclass of oop_refactor.py. -/
structure InfoMessage where
  training_type : String
  duration : ℚ
  distance : ℚ
  speed : ℚ
  calories : ℚ
deriving DecidableEq, Repr

/-- `InfoMessage.__str__`: the f-string template with `.3f` numeric fields. -/
def InfoMessage.toStr (m : InfoMessage) : String :=
  "Тип тренировки: " ++ m.training_type ++
  "; Длительность: " ++ fmt3 m.duration ++
  " ч.; Дистанция: " ++ fmt3 m.distance ++
  " км; Ср. скорость: " ++ fmt3 m.speed ++
  " км/ч; Потрачено ккал: " ++ fmt3 m.calories ++ "."

/-- Class constant `Training.M_IN_KM`. -/
def M_IN_KM : ℚ := 1000
/-- Class constant `Training.H_IN_MIN`. -/
def H_IN_MIN : ℚ := 60
/-- Class attribute `Training.len_step` (running/walking step length). -/
def len_step : ℚ := 0.65

/-- `class Running(Training)` of oop_refactor.py. -/
structure Running where
  action : ℚ
  duration : ℚ
  weight : ℚ
deriving DecidableEq, Repr

/-- `class SportsWalking(Training)` of oop_refactor.py. -/
structure SportsWalking where
  action : ℚ
  duration : ℚ
  weight : ℚ
  height : ℚ
deriving DecidableEq, Repr

/-- `class Swimming(Training)` of oop_refactor.py. -/
structure Swimming where
  action : ℚ
  duration : ℚ
  weight : ℚ
  length_pool : ℚ
  count_pool : ℚ
deriving DecidableEq, Repr

/-- `Training.get_distance`, as inherited by `Running`. -/
def Running.get_distance (t : Running) : ℚ :=
  t.action * len_step / M_IN_KM

/-- `Training.get_mean_speed`, as inherited by `Running`. -/
def Running.get_mean_speed (t : Running) : ℚ :=
  t.get_distance / t.duration

/-- `Running.CALORIES_MEAN_SPEED_MULTIPLIER`. -/
def Running.CALORIES_MEAN_SPEED_MULTIPLIER : ℚ := 18
/-- `Running.CALORIES_MEAN_SPEED_SHIFT`. -/
def Running.CALORIES_MEAN_SPEED_SHIFT : ℚ := 1.79

/-- `Running.get_spent_calories` of oop_refactor.py. -/
def Running.get_spent_calories (t : Running) : ℚ :=
  (Running.CALORIES_MEAN_SPEED_MULTIPLIER * t.get_mean_speed
      + Running.CALORIES_MEAN_SPEED_SHIFT)
    * t.weight / M_IN_KM
    * (t.duration * H_IN_MIN)

/-- `Training.show_training_info`, as inherited by `Running`. -/
def Running.show_training_info (t : Running) : InfoMessage :=
  ⟨"Running", t.duration, t.get_distance, t.get_mean_speed, t.get_spent_calories⟩

/-- `SportsWalking.COEF_1`. -/
def SportsWalking.COEF_1 : ℚ := 0.035
/-- `SportsWalking.COEF_2`. -/
def SportsWalking.COEF_2 : ℚ := 0.029
/-- `SportsWalking.KM_H_IN_M_S`. -/
def SportsWalking.KM_H_IN_M_S : ℚ := 0.278
/-- `SportsWalking.CM_IN_M`. -/
def SportsWalking.CM_IN_M : ℚ := 100

/-- `Training.get_distance`, as inherited by `SportsWalking`. -/
def SportsWalking.get_distance (t : SportsWalking) : ℚ :=
  t.action * len_step / M_IN_KM

/-- `Training.get_mean_speed`, as inherited by `SportsWalking`. -/
def SportsWalking.get_mean_speed (t : SportsWalking) : ℚ :=
  t.get_distance / t.duration

/-- `SportsWalking.get_spent_calories` of oop_refactor.py. -/
def SportsWalking.get_spent_calories (t : SportsWalking) : ℚ :=
  (SportsWalking.COEF_1 * t.weight
      + ((t.get_mean_speed * SportsWalking.KM_H_IN_M_S) ^ 2
          / (t.height / SportsWalking.CM_IN_M))
        * SportsWalking.COEF_2 * t.weight)
    * (t.duration * H_IN_MIN)

/-- `Training.show_training_info`, as inherited by `SportsWalking`. -/
def SportsWalking.show_training_info (t : SportsWalking) : InfoMessage :=
  ⟨"SportsWalking", t.duration, t.get_distance, t.get_mean_speed, t.get_spent_calories⟩

/-- `Swimming.len_step` override: stroke length 1.38 m. -/
def Swimming.len_step : ℚ := 1.38
/-- `Swimming.COEF_1` (named `NUMBER_1` in homework.py, same value 1.1). -/
def Swimming.COEF_1 : ℚ := 1.1
/-- `Swimming.COEF_2` (named `NUMBER_2` in homework.py, same value 2). -/
def Swimming.COEF_2 : ℚ := 2

/-- `Training.get_distance` as inherited by `Swimming`, with the overridden
`len_step = 1.38` found by dynamic lookup. -/
def Swimming.get_distance (t : Swimming) : ℚ :=
  t.action * Swimming.len_step / M_IN_KM

/-- `Swimming.get_mean_speed` override of oop_refactor.py. -/
def Swimming.get_mean_speed (t : Swimming) : ℚ :=
  t.length_pool * t.count_pool / M_IN_KM / t.duration

/-- `Swimming.get_spent_calories` of oop_refactor.py. -/
def Swimming.get_spent_calories (t : Swimming) : ℚ :=
  (t.get_mean_speed + Swimming.COEF_1)
    * Swimming.COEF_2 * t.weight * t.duration

/-- `Training.show_training_info`, as inherited by `Swimming`. -/
def Swimming.show_training_info (t : Swimming) : InfoMessage :=
  ⟨"Swimming", t.duration, t.get_distance, t.get_mean_speed, t.get_spent_calories⟩

/-- The fixed warning printed for an unrecognized workout type code. -/
def unknownTypeWarning : String :=
  "Данный тип тренировки неизвестен. Попробуйте походить, поплавать или бег."

/-- The `TypeError` on constructor-arity mismatch, as in `HW.argMismatch`. -/
def argMismatch : String := "TypeError: argument mismatch"

/-- `Swimming(*data)` of oop_refactor.py. -/
def mkSwimming (data : List ℚ) : Except String Swimming :=
  match data with
  | [a, d, w, lp, cp] => .ok ⟨a, d, w, lp, cp⟩
  | _ => .error argMismatch

/-- `Running(*data)` of oop_refactor.py. -/
def mkRunning (data : List ℚ) : Except String Running :=
  match data with
  | [a, d, w] => .ok ⟨a, d, w⟩
  | _ => .error argMismatch

/-- `SportsWalking(*data)` of oop_refactor.py. -/
def mkSportsWalking (data : List ℚ) : Except String SportsWalking :=
  match data with
  | [a, d, w, h] => .ok ⟨a, d, w, h⟩
  | _ => .error argMismatch

/-- `read_package` of oop_refactor.py.  On a recognized code it constructs
the variant, summarizes it and prints the formatted line; on an
unrecognized code it prints the fixed warning.  The result is the list of
lines printed (the Python function returns `None` on every path). -/
def read_package (workout_type : String) (data : List ℚ) :
    Except String (List String) :=
  if workout_type = "SWM" then
    (mkSwimming data).map fun t => [t.show_training_info.toStr]
  else if workout_type = "RUN" then
    (mkRunning data).map fun t => [t.show_training_info.toStr]
  else if workout_type = "WLK" then
    (mkSportsWalking data).map fun t => [t.show_training_info.toStr]
  else
    .ok [unknownTypeWarning]

end OR

/- ---------------------------------------------------------------------
   Helper lemmas
   --------------------------------------------------------------------- -/

/-- `Nat.digitChar` of a digit value is a decimal digit character. -/
lemma digitChar_isDigit : ∀ d : ℕ, d < 10 → (Nat.digitChar d).isDigit = true := by
  decide

/-- The decimal representation of a natural number is nonempty. -/
lemma natDecDigits_ne_nil (n : ℕ) : natDecDigits n ≠ [] := by
  rw [natDecDigits]
  split
  · simp
  · simp

/-- Every character of the decimal representation is a digit. -/
lemma natDecDigits_digits (n : ℕ) : ∀ c ∈ natDecDigits n, c.isDigit = true := by
  induction n using Nat.strong_induction_on with
  | _ n ih =>
    rw [natDecDigits]
    split
    · next h =>
        intro c hc
        simp only [List.mem_singleton] at hc
        subst hc
        exact digitChar_isDigit _ h
    · next h =>
        intro c hc
        rcases List.mem_append.mp hc with hc | hc
        · exact ih (n / 10) (Nat.div_lt_self (by omega) (by omega)) c hc
        · simp only [List.mem_singleton] at hc
          subst hc
          exact digitChar_isDigit _ (Nat.mod_lt _ (by omega))

/-- `pad3` always yields exactly three characters. -/
lemma pad3_length (n : ℕ) : (pad3 n).length = 3 := rfl

/-- Every character `pad3` yields is a decimal digit. -/
lemma pad3_digits (n : ℕ) : ∀ c ∈ pad3 n, c.isDigit = true := by
  intro c hc
  simp only [pad3, List.mem_cons, List.not_mem_nil, or_false] at hc
  rcases hc with rfl | rfl | rfl <;>
    exact digitChar_isDigit _ (Nat.mod_lt _ (by omega))

/-- Prepending the empty string changes nothing. -/
lemma empty_append_str (s : String) : "" ++ s = s := rfl

/-- Shape of the `.3f` rendering: an optional minus sign, a nonempty run
of decimal digits, a single point, and exactly three decimal digits. -/
lemma fmt3_decomp (q : ℚ) :
    ∃ (s : String) (i f : List Char),
      fmt3 q = s ++ (String.mk i ++ "." ++ String.mk f) ∧
      (s = "" ∨ s = "-") ∧
      i ≠ [] ∧ (∀ c ∈ i, c.isDigit = true) ∧
      f.length = 3 ∧ (∀ c ∈ f, c.isDigit = true) := by
  rw [fmt3]
  split
  · refine ⟨"-", natDecDigits ((rne (q * 1000)).natAbs / 1000),
      pad3 ((rne (q * 1000)).natAbs % 1000), rfl, Or.inr rfl,
      natDecDigits_ne_nil _, natDecDigits_digits _, pad3_length _, pad3_digits _⟩
  · refine ⟨"", natDecDigits ((rne (q * 1000)).toNat / 1000),
      pad3 ((rne (q * 1000)).toNat % 1000), ?_, Or.inl rfl,
      natDecDigits_ne_nil _, natDecDigits_digits _, pad3_length _, pad3_digits _⟩
    rw [empty_append_str]
    rfl

/-- `Running(*data)` of homework.py fails whenever `data` has length other
than three. -/
lemma HW.mkRunning_err_hw : ∀ (data : List ℚ), data.length ≠ 3 →
    HW.mkRunning data = .error HW.argMismatch
  | [], _ => rfl
  | [_], _ => rfl
  | [_, _], _ => rfl
  | [_, _, _], h => absurd rfl h
  | _ :: _ :: _ :: _ :: _, _ => rfl

/-- `SportsWalking(*data)` of homework.py fails whenever `data` has length
other than four. -/
lemma HW.mkSportsWalking_err_hw : ∀ (data : List ℚ), data.length ≠ 4 →
    HW.mkSportsWalking data = .error HW.argMismatch
  | [], _ => rfl
  | [_], _ => rfl
  | [_, _], _ => rfl
  | [_, _, _], _ => rfl
  | [_, _, _, _], h => absurd rfl h
  | _ :: _ :: _ :: _ :: _ :: _, _ => rfl

/-- `Swimming(*data)` of homework.py fails whenever `data` has length other
than five. -/
lemma HW.mkSwimming_err_hw : ∀ (data : List ℚ), data.length ≠ 5 →
    HW.mkSwimming data = .error HW.argMismatch
  | [], _ => rfl
  | [_], _ => rfl
  | [_, _], _ => rfl
  | [_, _, _], _ => rfl
  | [_, _, _, _], _ => rfl
  | [_, _, _, _, _], h => absurd rfl h
  | _ :: _ :: _ :: _ :: _ :: _ :: _, _ => rfl

/-- `Running(*data)` of oop_refactor.py fails on any length other than 3. -/
lemma OR.mkRunning_err_or : ∀ (data : List ℚ), data.length ≠ 3 →
    OR.mkRunning data = .error OR.argMismatch
  | [], _ => rfl
  | [_], _ => rfl
  | [_, _], _ => rfl
  | [_, _, _], h => absurd rfl h
  | _ :: _ :: _ :: _ :: _, _ => rfl

/-- `SportsWalking(*data)` of oop_refactor.py fails on any length other
than 4. -/
lemma OR.mkSportsWalking_err_or : ∀ (data : List ℚ), data.length ≠ 4 →
    OR.mkSportsWalking data = .error OR.argMismatch
  | [], _ => rfl
  | [_], _ => rfl
  | [_, _], _ => rfl
  | [_, _, _], _ => rfl
  | [_, _, _, _], h => absurd rfl h
  | _ :: _ :: _ :: _ :: _ :: _, _ => rfl

/-- `Swimming(*data)` of oop_refactor.py fails on any length other than 5. -/
lemma OR.mkSwimming_err_or : ∀ (data : List ℚ), data.length ≠ 5 →
    OR.mkSwimming data = .error OR.argMismatch
  | [], _ => rfl
  | [_], _ => rfl
  | [_, _], _ => rfl
  | [_, _, _], _ => rfl
  | [_, _, _, _], _ => rfl
  | [_, _, _, _, _], h => absurd rfl h
  | _ :: _ :: _ :: _ :: _ :: _ :: _, _ => rfl

/- ---------------------------------------------------------------------
   Claim theorems
   --------------------------------------------------------------------- -/

/-- C1: for every type code outside {SWM, RUN, WLK} and every raw data
list, `read_package` of both files constructs no calculator and produces
no workout record; it only prints the fixed unknown-type warning line and
returns normally (no error), so the caller can continue with the rest of
the batch. -/
theorem unknown_workout_type_writes_warning (wt : String) (data : List ℚ)
    (h1 : wt ≠ "SWM") (h2 : wt ≠ "RUN") (h3 : wt ≠ "WLK") :
    HW.read_package wt data = .ok (none, [HW.unknownTypeWarning]) ∧
    OR.read_package wt data = .ok [OR.unknownTypeWarning] := by
  constructor
  · rw [HW.read_package, if_neg h1, if_neg h2, if_neg h3]
  · rw [OR.read_package, if_neg h1, if_neg h2, if_neg h3]

/-- C1 witness: the unrecognized code "XYZ" with empty data. -/
theorem unknown_workout_type_writes_warning_witness :
    HW.read_package "XYZ" [] = .ok (none, [HW.unknownTypeWarning]) ∧
    OR.read_package "XYZ" [] = .ok [OR.unknownTypeWarning] :=
  unknown_workout_type_writes_warning "XYZ" []
    (by decide) (by decide) (by decide)

/-- C7: for every recognized type code, if the raw data list's length does
not match the variant's arity (3 for RUN, 4 for WLK, 5 for SWM),
`read_package` of both files surfaces the construction error to the
caller and produces no record and no output line. -/
theorem recognized_code_arity_mismatch_fails (wt : String) (data : List ℚ)
    (h : (wt = "RUN" ∧ data.length ≠ 3) ∨ (wt = "WLK" ∧ data.length ≠ 4) ∨
         (wt = "SWM" ∧ data.length ≠ 5)) :
    HW.read_package wt data = .error HW.argMismatch ∧
    OR.read_package wt data = .error OR.argMismatch := by
  rcases h with ⟨rfl, hl⟩ | ⟨rfl, hl⟩ | ⟨rfl, hl⟩
  · constructor
    · rw [HW.read_package, if_neg (by decide), if_pos rfl,
        HW.mkRunning_err_hw data hl]
      rfl
    · rw [OR.read_package, if_neg (by decide), if_pos rfl,
        OR.mkRunning_err_or data hl]
      rfl
  · constructor
    · rw [HW.read_package, if_neg (by decide), if_neg (by decide),
        if_pos rfl, HW.mkSportsWalking_err_hw data hl]
      rfl
    · rw [OR.read_package, if_neg (by decide), if_neg (by decide),
        if_pos rfl, OR.mkSportsWalking_err_or data hl]
      rfl
  · constructor
    · rw [HW.read_package, if_pos rfl, HW.mkSwimming_err_hw data hl]
      rfl
    · rw [OR.read_package, if_pos rfl, OR.mkSwimming_err_or data hl]
      rfl

/-- C7 witness: "RUN" with only two values. -/
theorem recognized_code_arity_mismatch_fails_witness :
    HW.read_package "RUN" [15000, 1] = .error HW.argMismatch ∧
    OR.read_package "RUN" [15000, 1] = .error OR.argMismatch :=
  recognized_code_arity_mismatch_fails "RUN" [15000, 1]
    (Or.inl ⟨rfl, by decide⟩)

/-- C2 counterexample: at (action = 15000, duration = 1, weight = 75) the
Running calorie value is 797.805, not 798.0 as the claim states; the two
differ already in the first decimal place, so they are not equal to three
decimal places. -/
theorem running_calories_not_798 :
    HW.Running.get_spent_calories ⟨15000, 1, 75⟩ = 797.805 ∧
    HW.Running.get_spent_calories ⟨15000, 1, 75⟩ ≠ 798 ∧
    OR.Running.get_spent_calories ⟨15000, 1, 75⟩ ≠ 798 := by
  refine ⟨?_, ?_, ?_⟩ <;>
    norm_num [HW.Running.get_spent_calories, HW.Running.get_mean_speed,
      HW.Running.get_distance, HW.M_IN_KM, HW.H_IN_MIN, HW.LEN_STEP,
      HW.Running.CALORIES_MEAN_SPEED_MULTIPLIER,
      HW.Running.CALORIES_MEAN_SPEED_SHIFT,
      OR.Running.get_spent_calories, OR.Running.get_mean_speed,
      OR.Running.get_distance, OR.M_IN_KM, OR.H_IN_MIN, OR.len_step,
      OR.Running.CALORIES_MEAN_SPEED_MULTIPLIER,
      OR.Running.CALORIES_MEAN_SPEED_SHIFT]

/-- C2 (amended): for every Running calculator with action ≥ 0,
duration > 0, weight > 0, both files return
(18 * meanSpeed + 1.79) * weight / 1000 * (duration * 60) with
meanSpeed = (action * 0.65 / 1000) / duration; at
(action = 15000, duration = 1, weight = 75) the distance is 9.75 km, the
mean speed 9.75 km/h, and the calories 797.805 (not 798.0). -/
theorem running_calories_formula (a d w : ℚ)
    (ha : 0 ≤ a) (hd : 0 < d) (hw : 0 < w) :
    HW.Running.get_spent_calories ⟨a, d, w⟩ =
      (18 * ((a * 0.65 / 1000) / d) + 1.79) * w / 1000 * (d * 60) ∧
    OR.Running.get_spent_calories ⟨a, d, w⟩ =
      (18 * ((a * 0.65 / 1000) / d) + 1.79) * w / 1000 * (d * 60) ∧
    HW.Running.get_distance ⟨15000, 1, 75⟩ = 9.75 ∧
    HW.Running.get_mean_speed ⟨15000, 1, 75⟩ = 9.75 ∧
    HW.Running.get_spent_calories ⟨15000, 1, 75⟩ = 797.805 ∧
    OR.Running.get_spent_calories ⟨15000, 1, 75⟩ = 797.805 := by
  refine ⟨rfl, rfl, ?_, ?_, ?_, ?_⟩ <;>
    norm_num [HW.Running.get_spent_calories, HW.Running.get_mean_speed,
      HW.Running.get_distance, HW.M_IN_KM, HW.H_IN_MIN, HW.LEN_STEP,
      HW.Running.CALORIES_MEAN_SPEED_MULTIPLIER,
      HW.Running.CALORIES_MEAN_SPEED_SHIFT,
      OR.Running.get_spent_calories, OR.Running.get_mean_speed,
      OR.Running.get_distance, OR.M_IN_KM, OR.H_IN_MIN, OR.len_step,
      OR.Running.CALORIES_MEAN_SPEED_MULTIPLIER,
      OR.Running.CALORIES_MEAN_SPEED_SHIFT]

/-- C2 witness: the amended theorem applied at the sample running input. -/
theorem running_calories_formula_witness :
    HW.Running.get_spent_calories ⟨15000, 1, 75⟩ =
      (18 * ((15000 * 0.65 / 1000) / 1) + 1.79) * 75 / 1000 * (1 * 60) ∧
    OR.Running.get_spent_calories ⟨15000, 1, 75⟩ =
      (18 * ((15000 * 0.65 / 1000) / 1) + 1.79) * 75 / 1000 * (1 * 60) ∧
    HW.Running.get_distance ⟨15000, 1, 75⟩ = 9.75 ∧
    HW.Running.get_mean_speed ⟨15000, 1, 75⟩ = 9.75 ∧
    HW.Running.get_spent_calories ⟨15000, 1, 75⟩ = 797.805 ∧
    OR.Running.get_spent_calories ⟨15000, 1, 75⟩ = 797.805 :=
  running_calories_formula 15000 1 75 (by norm_num) (by norm_num) (by norm_num)

/-- C3: for every Swimming calculator with duration > 0, both files return
the pool-based mean speed (length_pool * count_pool / 1000) / duration; at
(action = 720, duration = 1, weight = 80, poolLength = 25, laps = 40) it
is 1.0 km/h, which differs from the distance-based default
get_distance() / duration (= 0.9936) there. -/
theorem swimming_mean_speed_pool_based (a d w lp cp : ℚ) (hd : 0 < d) :
    HW.Swimming.get_mean_speed ⟨a, d, w, lp, cp⟩ =
      (lp * cp / 1000) / d ∧
    OR.Swimming.get_mean_speed ⟨a, d, w, lp, cp⟩ =
      (lp * cp / 1000) / d ∧
    HW.Swimming.get_mean_speed ⟨720, 1, 80, 25, 40⟩ = 1 ∧
    OR.Swimming.get_mean_speed ⟨720, 1, 80, 25, 40⟩ = 1 ∧
    HW.Swimming.get_mean_speed ⟨720, 1, 80, 25, 40⟩ ≠
      HW.Swimming.get_distance ⟨720, 1, 80, 25, 40⟩ / 1 := by
  refine ⟨rfl, rfl, ?_, ?_, ?_⟩ <;>
    norm_num [HW.Swimming.get_mean_speed, HW.Swimming.get_distance,
      HW.M_IN_KM, HW.Swimming.LEN_STEP,
      OR.Swimming.get_mean_speed, OR.Swimming.get_distance,
      OR.M_IN_KM, OR.Swimming.len_step]

/-- C3 witness: the sample swimming input. -/
theorem swimming_mean_speed_pool_based_witness :
    HW.Swimming.get_mean_speed ⟨720, 1, 80, 25, 40⟩ =
      (25 * 40 / 1000) / 1 ∧
    OR.Swimming.get_mean_speed ⟨720, 1, 80, 25, 40⟩ =
      (25 * 40 / 1000) / 1 ∧
    HW.Swimming.get_mean_speed ⟨720, 1, 80, 25, 40⟩ = 1 ∧
    OR.Swimming.get_mean_speed ⟨720, 1, 80, 25, 40⟩ = 1 ∧
    HW.Swimming.get_mean_speed ⟨720, 1, 80, 25, 40⟩ ≠
      HW.Swimming.get_distance ⟨720, 1, 80, 25, 40⟩ / 1 :=
  swimming_mean_speed_pool_based 720 1 80 25 40 (by norm_num)

/-- C4: for every Swimming calculator with duration > 0, both files return
calories = (meanSpeed + 1.1) * 2 * weight * duration with the pool-based
meanSpeed; at (720, 1, 80, 25, 40) the calories are 336.0, which differs
from the value the distance-based default speed would give. -/
theorem swimming_calories_formula (a d w lp cp : ℚ) (hd : 0 < d) :
    HW.Swimming.get_spent_calories ⟨a, d, w, lp, cp⟩ =
      ((lp * cp / 1000) / d + 1.1) * 2 * w * d ∧
    OR.Swimming.get_spent_calories ⟨a, d, w, lp, cp⟩ =
      ((lp * cp / 1000) / d + 1.1) * 2 * w * d ∧
    HW.Swimming.get_spent_calories ⟨720, 1, 80, 25, 40⟩ = 336 ∧
    OR.Swimming.get_spent_calories ⟨720, 1, 80, 25, 40⟩ = 336 ∧
    HW.Swimming.get_spent_calories ⟨720, 1, 80, 25, 40⟩ ≠
      (HW.Swimming.get_distance ⟨720, 1, 80, 25, 40⟩ / 1 + 1.1)
        * 2 * 80 * 1 := by
  refine ⟨?_, ?_, ?_, ?_, ?_⟩ <;>
    norm_num [HW.Swimming.get_spent_calories, HW.Swimming.get_mean_speed,
      HW.Swimming.get_distance, HW.M_IN_KM, HW.Swimming.LEN_STEP,
      HW.Swimming.NUMBER_1, HW.Swimming.NUMBER_2,
      OR.Swimming.get_spent_calories, OR.Swimming.get_mean_speed,
      OR.Swimming.get_distance, OR.M_IN_KM, OR.Swimming.len_step,
      OR.Swimming.COEF_1, OR.Swimming.COEF_2]

/-- C4 witness: the sample swimming input. -/
theorem swimming_calories_formula_witness :
    HW.Swimming.get_spent_calories ⟨720, 1, 80, 25, 40⟩ =
      ((25 * 40 / 1000) / 1 + 1.1) * 2 * 80 * 1 ∧
    OR.Swimming.get_spent_calories ⟨720, 1, 80, 25, 40⟩ =
      ((25 * 40 / 1000) / 1 + 1.1) * 2 * 80 * 1 ∧
    HW.Swimming.get_spent_calories ⟨720, 1, 80, 25, 40⟩ = 336 ∧
    OR.Swimming.get_spent_calories ⟨720, 1, 80, 25, 40⟩ = 336 ∧
    HW.Swimming.get_spent_calories ⟨720, 1, 80, 25, 40⟩ ≠
      (HW.Swimming.get_distance ⟨720, 1, 80, 25, 40⟩ / 1 + 1.1)
        * 2 * 80 * 1 :=
  swimming_calories_formula 720 1 80 25 40 (by norm_num)

/-- C5: for every SportsWalking calculator with duration > 0 and height ≠ 0,
both files return calories =
(0.035*w + ((meanSpeed * 0.278)^2 / (height/100)) * 0.029 * w) * (d * 60)
with meanSpeed = (action * 0.65 / 1000) / duration; at
(action = 9000, duration = 1, weight = 75, height = 180) the distance is
5.85 km, the mean speed 5.85 km/h, and the calories equal the formula value
exactly (hence to three decimal places). -/
theorem walking_calories_formula (a d w ht : ℚ) (hd : 0 < d) (hh : ht ≠ 0) :
    HW.SportsWalking.get_spent_calories ⟨a, d, w, ht⟩ =
      (0.035 * w + (((a * 0.65 / 1000) / d * 0.278) ^ 2 / (ht / 100))
        * 0.029 * w) * (d * 60) ∧
    OR.SportsWalking.get_spent_calories ⟨a, d, w, ht⟩ =
      (0.035 * w + (((a * 0.65 / 1000) / d * 0.278) ^ 2 / (ht / 100))
        * 0.029 * w) * (d * 60) ∧
    HW.SportsWalking.get_distance ⟨9000, 1, 75, 180⟩ = 5.85 ∧
    HW.SportsWalking.get_mean_speed ⟨9000, 1, 75, 180⟩ = 5.85 ∧
    HW.SportsWalking.get_spent_calories ⟨9000, 1, 75, 180⟩ =
      (0.035 * 75 + ((5.85 * 0.278) ^ 2 / (180 / 100)) * 0.029 * 75)
        * (1 * 60) ∧
    OR.SportsWalking.get_spent_calories ⟨9000, 1, 75, 180⟩ =
      (0.035 * 75 + ((5.85 * 0.278) ^ 2 / (180 / 100)) * 0.029 * 75)
        * (1 * 60) := by
  refine ⟨rfl, rfl, ?_, ?_, ?_, ?_⟩ <;>
    norm_num [HW.SportsWalking.get_spent_calories,
      HW.SportsWalking.get_mean_speed, HW.SportsWalking.get_distance,
      HW.M_IN_KM, HW.H_IN_MIN, HW.LEN_STEP, HW.SportsWalking.COEF_1,
      HW.SportsWalking.COEF_2, HW.SportsWalking.KM_H_IN_M_S,
      HW.SportsWalking.CM_IN_M,
      OR.SportsWalking.get_spent_calories,
      OR.SportsWalking.get_mean_speed, OR.SportsWalking.get_distance,
      OR.M_IN_KM, OR.H_IN_MIN, OR.len_step, OR.SportsWalking.COEF_1,
      OR.SportsWalking.COEF_2, OR.SportsWalking.KM_H_IN_M_S,
      OR.SportsWalking.CM_IN_M]

/-- C5 witness: the sample walking input. -/
theorem walking_calories_formula_witness :
    HW.SportsWalking.get_spent_calories ⟨9000, 1, 75, 180⟩ =
      (0.035 * 75 + (((9000 * 0.65 / 1000) / 1 * 0.278) ^ 2 / (180 / 100))
        * 0.029 * 75) * (1 * 60) ∧
    OR.SportsWalking.get_spent_calories ⟨9000, 1, 75, 180⟩ =
      (0.035 * 75 + (((9000 * 0.65 / 1000) / 1 * 0.278) ^ 2 / (180 / 100))
        * 0.029 * 75) * (1 * 60) ∧
    HW.SportsWalking.get_distance ⟨9000, 1, 75, 180⟩ = 5.85 ∧
    HW.SportsWalking.get_mean_speed ⟨9000, 1, 75, 180⟩ = 5.85 ∧
    HW.SportsWalking.get_spent_calories ⟨9000, 1, 75, 180⟩ =
      (0.035 * 75 + ((5.85 * 0.278) ^ 2 / (180 / 100)) * 0.029 * 75)
        * (1 * 60) ∧
    OR.SportsWalking.get_spent_calories ⟨9000, 1, 75, 180⟩ =
      (0.035 * 75 + ((5.85 * 0.278) ^ 2 / (180 / 100)) * 0.029 * 75)
        * (1 * 60) :=
  walking_calories_formula 9000 1 75 180 (by norm_num) (by norm_num)

/-- C6: for every calculator of either file, get_distance returns
action * stepLength / 1000 with stepLength 0.65 for Running and
SportsWalking and 1.38 for Swimming — including Swimming, whose speed
path does not use this distance. -/
theorem distance_formula_all_variants (a d w ht lp cp : ℚ) :
    HW.Running.get_distance ⟨a, d, w⟩ = a * 0.65 / 1000 ∧
    HW.SportsWalking.get_distance ⟨a, d, w, ht⟩ = a * 0.65 / 1000 ∧
    HW.Swimming.get_distance ⟨a, d, w, lp, cp⟩ = a * 1.38 / 1000 ∧
    OR.Running.get_distance ⟨a, d, w⟩ = a * 0.65 / 1000 ∧
    OR.SportsWalking.get_distance ⟨a, d, w, ht⟩ = a * 0.65 / 1000 ∧
    OR.Swimming.get_distance ⟨a, d, w, lp, cp⟩ = a * 1.38 / 1000 :=
  ⟨rfl, rfl, rfl, rfl, rfl, rfl⟩

/-- C8: for every workout record, both renderers produce exactly the fixed
template with the four numeric fields formatted `.3f`; and every `.3f`
rendering consists of an optional minus sign, a nonempty run of decimal
digit characters, a single decimal point, and exactly three decimal digit
characters — no grouping separators. -/
theorem message_template_three_decimals
    (tt : String) (d dist sp cal : ℚ) :
    HW.InfoMessage.get_message ⟨tt, d, dist, sp, cal⟩ =
      "Тип тренировки: " ++ tt ++ "; Длительность: " ++ fmt3 d ++
      " ч.; Дистанция: " ++ fmt3 dist ++ " км; Ср. скорость: " ++
      fmt3 sp ++ " км/ч; Потрачено ккал: " ++ fmt3 cal ++ "." ∧
    OR.InfoMessage.toStr ⟨tt, d, dist, sp, cal⟩ =
      "Тип тренировки: " ++ tt ++ "; Длительность: " ++ fmt3 d ++
      " ч.; Дистанция: " ++ fmt3 dist ++ " км; Ср. скорость: " ++
      fmt3 sp ++ " км/ч; Потрачено ккал: " ++ fmt3 cal ++ "." ∧
    (∀ q : ℚ, ∃ (s : String) (i f : List Char),
      fmt3 q = s ++ (String.mk i ++ "." ++ String.mk f) ∧
      (s = "" ∨ s = "-") ∧
      i ≠ [] ∧ (∀ c ∈ i, c.isDigit = true) ∧
      f.length = 3 ∧ (∀ c ∈ f, c.isDigit = true)) :=
  ⟨rfl, rfl, fmt3_decomp⟩

/-- C9: on every matching input with duration > 0 (and height ≠ 0 for
walking), homework.py and oop_refactor.py compute equal distance, mean
speed and calories for each of the three variants, and their summary
renderers produce character-identical lines. -/
theorem homework_refactor_equivalent (a d w ht lp cp : ℚ)
    (hd : 0 < d) (hh : ht ≠ 0) :
    HW.Running.get_distance ⟨a, d, w⟩ = OR.Running.get_distance ⟨a, d, w⟩ ∧
    HW.Running.get_mean_speed ⟨a, d, w⟩ =
      OR.Running.get_mean_speed ⟨a, d, w⟩ ∧
    HW.Running.get_spent_calories ⟨a, d, w⟩ =
      OR.Running.get_spent_calories ⟨a, d, w⟩ ∧
    HW.InfoMessage.get_message (HW.Running.show_training_info ⟨a, d, w⟩) =
      OR.InfoMessage.toStr (OR.Running.show_training_info ⟨a, d, w⟩) ∧
    HW.SportsWalking.get_distance ⟨a, d, w, ht⟩ =
      OR.SportsWalking.get_distance ⟨a, d, w, ht⟩ ∧
    HW.SportsWalking.get_mean_speed ⟨a, d, w, ht⟩ =
      OR.SportsWalking.get_mean_speed ⟨a, d, w, ht⟩ ∧
    HW.SportsWalking.get_spent_calories ⟨a, d, w, ht⟩ =
      OR.SportsWalking.get_spent_calories ⟨a, d, w, ht⟩ ∧
    HW.InfoMessage.get_message
        (HW.SportsWalking.show_training_info ⟨a, d, w, ht⟩) =
      OR.InfoMessage.toStr
        (OR.SportsWalking.show_training_info ⟨a, d, w, ht⟩) ∧
    HW.Swimming.get_distance ⟨a, d, w, lp, cp⟩ =
      OR.Swimming.get_distance ⟨a, d, w, lp, cp⟩ ∧
    HW.Swimming.get_mean_speed ⟨a, d, w, lp, cp⟩ =
      OR.Swimming.get_mean_speed ⟨a, d, w, lp, cp⟩ ∧
    HW.Swimming.get_spent_calories ⟨a, d, w, lp, cp⟩ =
      OR.Swimming.get_spent_calories ⟨a, d, w, lp, cp⟩ ∧
    HW.InfoMessage.get_message
        (HW.Swimming.show_training_info ⟨a, d, w, lp, cp⟩) =
      OR.InfoMessage.toStr
        (OR.Swimming.show_training_info ⟨a, d, w, lp, cp⟩) :=
  ⟨rfl, rfl, rfl, rfl, rfl, rfl, rfl, rfl, rfl, rfl, rfl, rfl⟩

/-- C9 witness: the sample batch values (running fields 15000/1/75 with
walking height 180 and swimming pool 25 × 40). -/
theorem homework_refactor_equivalent_witness :
    HW.Running.get_distance ⟨15000, 1, 75⟩ =
      OR.Running.get_distance ⟨15000, 1, 75⟩ ∧
    HW.Running.get_mean_speed ⟨15000, 1, 75⟩ =
      OR.Running.get_mean_speed ⟨15000, 1, 75⟩ ∧
    HW.Running.get_spent_calories ⟨15000, 1, 75⟩ =
      OR.Running.get_spent_calories ⟨15000, 1, 75⟩ ∧
    HW.InfoMessage.get_message
        (HW.Running.show_training_info ⟨15000, 1, 75⟩) =
      OR.InfoMessage.toStr (OR.Running.show_training_info ⟨15000, 1, 75⟩) ∧
    HW.SportsWalking.get_distance ⟨15000, 1, 75, 180⟩ =
      OR.SportsWalking.get_distance ⟨15000, 1, 75, 180⟩ ∧
    HW.SportsWalking.get_mean_speed ⟨15000, 1, 75, 180⟩ =
      OR.SportsWalking.get_mean_speed ⟨15000, 1, 75, 180⟩ ∧
    HW.SportsWalking.get_spent_calories ⟨15000, 1, 75, 180⟩ =
      OR.SportsWalking.get_spent_calories ⟨15000, 1, 75, 180⟩ ∧
    HW.InfoMessage.get_message
        (HW.SportsWalking.show_training_info ⟨15000, 1, 75, 180⟩) =
      OR.InfoMessage.toStr
        (OR.SportsWalking.show_training_info ⟨15000, 1, 75, 180⟩) ∧
    HW.Swimming.get_distance ⟨15000, 1, 75, 25, 40⟩ =
      OR.Swimming.get_distance ⟨15000, 1, 75, 25, 40⟩ ∧
    HW.Swimming.get_mean_speed ⟨15000, 1, 75, 25, 40⟩ =
      OR.Swimming.get_mean_speed ⟨15000, 1, 75, 25, 40⟩ ∧
    HW.Swimming.get_spent_calories ⟨15000, 1, 75, 25, 40⟩ =
      OR.Swimming.get_spent_calories ⟨15000, 1, 75, 25, 40⟩ ∧
    HW.InfoMessage.get_message
        (HW.Swimming.show_training_info ⟨15000, 1, 75, 25, 40⟩) =
      OR.InfoMessage.toStr
        (OR.Swimming.show_training_info ⟨15000, 1, 75, 25, 40⟩) :=
  homework_refactor_equivalent 15000 1 75 180 25 40
    (by norm_num) (by norm_num)

/-- C10: for Running and SportsWalking records (duration > 0) the reported
speed equals reported distance / duration in both files; for Swimming this
fails: at (720, 1, 80, 25, 40) the record's distance is 0.9936 km
(stroke-based) while its speed is 1.0 km/h (pool-based). -/
theorem speed_distance_consistency
    (r : HW.Running) (wk : HW.SportsWalking)
    (hr : 0 < r.duration) (hw : 0 < wk.duration) :
    (HW.Running.show_training_info r).speed =
      (HW.Running.show_training_info r).distance / r.duration ∧
    (HW.SportsWalking.show_training_info wk).speed =
      (HW.SportsWalking.show_training_info wk).distance / wk.duration ∧
    (OR.Running.show_training_info ⟨r.action, r.duration, r.weight⟩).speed =
      (OR.Running.show_training_info
        ⟨r.action, r.duration, r.weight⟩).distance / r.duration ∧
    (HW.Swimming.show_training_info ⟨720, 1, 80, 25, 40⟩).distance =
      0.9936 ∧
    (HW.Swimming.show_training_info ⟨720, 1, 80, 25, 40⟩).speed = 1 ∧
    (HW.Swimming.show_training_info ⟨720, 1, 80, 25, 40⟩).speed ≠
      (HW.Swimming.show_training_info ⟨720, 1, 80, 25, 40⟩).distance /
        (1 : ℚ) ∧
    (OR.Swimming.show_training_info ⟨720, 1, 80, 25, 40⟩).speed ≠
      (OR.Swimming.show_training_info ⟨720, 1, 80, 25, 40⟩).distance /
        (1 : ℚ) := by
  refine ⟨rfl, rfl, rfl, ?_, ?_, ?_, ?_⟩ <;>
    norm_num [HW.Swimming.show_training_info, HW.Swimming.get_distance,
      HW.Swimming.get_mean_speed, HW.M_IN_KM, HW.Swimming.LEN_STEP,
      OR.Swimming.show_training_info, OR.Swimming.get_distance,
      OR.Swimming.get_mean_speed, OR.M_IN_KM, OR.Swimming.len_step]

/-- C10 witness: the sample running and walking inputs. -/
theorem speed_distance_consistency_witness :
    (HW.Running.show_training_info ⟨15000, 1, 75⟩).speed =
      (HW.Running.show_training_info ⟨15000, 1, 75⟩).distance / 1 ∧
    (HW.SportsWalking.show_training_info ⟨9000, 1, 75, 180⟩).speed =
      (HW.SportsWalking.show_training_info ⟨9000, 1, 75, 180⟩).distance /
        1 ∧
    (OR.Running.show_training_info ⟨15000, 1, 75⟩).speed =
      (OR.Running.show_training_info ⟨15000, 1, 75⟩).distance / 1 ∧
    (HW.Swimming.show_training_info ⟨720, 1, 80, 25, 40⟩).distance =
      0.9936 ∧
    (HW.Swimming.show_training_info ⟨720, 1, 80, 25, 40⟩).speed = 1 ∧
    (HW.Swimming.show_training_info ⟨720, 1, 80, 25, 40⟩).speed ≠
      (HW.Swimming.show_training_info ⟨720, 1, 80, 25, 40⟩).distance /
        (1 : ℚ) ∧
    (OR.Swimming.show_training_info ⟨720, 1, 80, 25, 40⟩).speed ≠
      (OR.Swimming.show_training_info ⟨720, 1, 80, 25, 40⟩).distance /
        (1 : ℚ) :=
  speed_distance_consistency ⟨15000, 1, 75⟩ ⟨9000, 1, 75, 180⟩
    (by norm_num) (by norm_num)
